import Mathlib

/-!
Shallow embedding of `src/matrix/commands/aoc/day.rs` (the `invoke` command
handler of the aocbot repository): parameter resolution, leaderboard fetch
error classification, rank assignment, filtering, pagination, HTML rendering
and delivery error classification.

External collaborators (the Matrix room, the AoC HTTP client, clock/calendar
helpers, user-directory lookups, formatting helpers living outside this file's
source) are passed in as components of an `Ext` record; the control flow and
all literals are transcribed from `day.rs`.
-/

/-- Scope of the day's leaderboard view (`crate::aoc::client::Parts`). -/
inductive Parts where
  | P1
  | P2
  | Both
deriving DecidableEq, Repr

/-- Per-day completion record. Modelled from the spec: `models.rs` is not part
of the given source; the spec says a member carries "per-day completion records
(for each day, first/second-part completion timestamps when available)" and
`day.rs` reads `completion_day_level.get(&day).unwrap().fst.get_star_ts`, so
the first-part star timestamp is a mandatory field of the record and the
second-part one is optional. Timestamps are instants, modelled as `Int`. -/
structure CompletionDayLevel where
  fst_get_star_ts : Int
  snd_get_star_ts : Option Int
deriving DecidableEq, Repr

/-- A member of the private leaderboard (`crate::aoc::models::PrivateLeaderboardMember`).
Modelled from the spec: "identity (opaque external id), display name, local
score (non-negative integer), star count, per-day completion records,
last-star timestamp". `local_score` is a Rust `u32`; it is modelled as `Nat`,
with `2 ^ 32 - 1` standing for `u32::MAX`. `display_name()` is modelled as a
stored field since its implementation is outside the given source. The
completion map is an association list keyed by day. -/
structure PrivateLeaderboardMember where
  id : Nat
  displayName : String
  local_score : Nat
  stars : Nat
  last_star_ts : Int
  completion_day_level : List (Nat × CompletionDayLevel)
deriving DecidableEq, Repr

/-- Lookup in the completion map (`completion_day_level.get(&day)`). -/
def lookupCDL (l : List (Nat × CompletionDayLevel)) (day : Nat) : Option CompletionDayLevel :=
  (l.find? (fun p => p.1 == day)).map Prod.snd

/-- The fetched snapshot (`leaderboard.members` is a map; only its values are
used, in an order the map does not fix, so the model stores them as a list). -/
structure Leaderboard where
  members : List PrivateLeaderboardMember
deriving DecidableEq, Repr

/-- A failure of `get_daily_private_leaderboard`, as classified by `day.rs`
lines 80–96: either it downcasts to a `reqwest::Error` (which may or may not
carry an HTTP status — the status is modelled by its display string), or it is
some other error (`tag` keeps distinct errors distinct). -/
inductive FetchError where
  | reqwest (status : Option String) (tag : Nat)
  | other (tag : Nat)
deriving DecidableEq, Repr

/-- What `err.as_client_api_error().and_then(|err| err.error_kind())` yields on
a Matrix send error: possibly a client-API error kind, which is `TooLarge` or
some other kind. -/
inductive MatrixErrorKind where
  | tooLarge
  | otherKind (code : Nat)
deriving DecidableEq, Repr

/-- An error from `room.reply_to`. -/
structure MatrixError where
  errorKind : Option MatrixErrorKind
deriving DecidableEq, Repr

/-- A message sent back to the room: `error_message(..)` text (also what
`send_error` sends) or an `html_message(..)` document. -/
inductive Reply where
  | error (msg : String)
  | html (body : String)
deriving DecidableEq, Repr

/-- What `invoke` can return as `Err(..)`: a propagated fetch error, a
propagated Matrix send error, or the panic of the `.unwrap()` on the
completion record (a programming-contract violation, modelled as a fault). -/
inductive Fault where
  | fetch (e : FetchError)
  | send (e : MatrixError)
  | contractViolation
deriving DecidableEq, Repr

deriving instance DecidableEq for Except

/-- The observable outcome of one `invoke`: the trace of attempted
`room.reply_to` calls (each with the send result) and the function return
value. -/
structure InvokeResult where
  sends : List (Reply × Option MatrixError)
  result : Except Fault Unit
deriving DecidableEq, Repr

/-- The argument lookup: `cmd.get_from_kwargs_or_args(key)`. -/
abbrev Args := String → Option String

/-- The external collaborators `invoke` talks to, as pure functions. -/
structure Env where
  /-- `AocDay::current().map(|d| d.day)` -/
  currentDay : Option Nat
  /-- `AocDay::most_recent().year` -/
  mostRecentYear : Nat
  /-- `context.config.aoc.leaderboard_rows` -/
  leaderboardRows : Nat
  /-- `context.aoc_client.get_daily_private_leaderboard(year, day, parts)`,
  returning the snapshot and its last-update instant -/
  fetch : Nat → Nat → Parts → Except FetchError (Leaderboard × Int)
  /-- `context.config.local_timezone.from_utc_datetime(..).format_ymd_hms_z()` -/
  fmtLastUpdate : Int → String
  /-- `AocDay { year, day }.unlock_datetime()` -/
  unlockDatetime : Nat → Nat → Int
  /-- `context.users.by_aoc.get(&id).and_then(|u| u.matrix.as_ref()).map(|m| m.matrix_to_uri().to_string())` -/
  matrixUri : Nat → Option String
  /-- `context.users.by_aoc.get(&id).and_then(|u| u.repo.as_deref())` -/
  repoOf : Nat → Option String
  /-- `context.config.aoc.repo_rules.match_and_replace(repo).map(|m| m.replacement)` -/
  repoRule : String → Option String
  /-- `context.config.local_timezone.from_utc_datetime(..).format_ymd_hms()` -/
  fmtCompletion : Int → String
  /-- `crate::utils::fmt::fmt_timedelta` -/
  fmtTimedelta : Int → String
  /-- `crate::utils::fmt::format_rank` -/
  formatRank : Nat → String
  /-- `room.reply_to(event, reply)`: `none` is success -/
  send : Reply → Option MatrixError

/-- Rust `str::parse` into an unsigned integer type: an optional leading `+`
followed by at least one ASCII digit. (Negative or malformed input fails to
parse; inputs that would only fail Rust's parse by overflowing its integer
type are all rejected by the range filters applied right after every parse in
`day.rs`, so the unbounded `Nat` value is observationally equivalent.) -/
def parseNum (s : String) : Option Nat :=
  let t := match s.toList with
    | '+' :: cs => cs
    | cs => cs
  if t.length > 0 && t.all Char.isDigit then
    some (t.foldl (fun n c => n * 10 + (c.toNat - 48)) 0)
  else
    none

/-- Lines 28–36: resolve `day` from the argument lookup, falling back to the
currently active event day; a present but unparsable/out-of-range value and a
missing value with no active day each yield the user-facing message sent by
`send_error`. -/
def resolveDay (env : Env) (args : Args) : Except String Nat :=
  match ((args "day").map (fun d =>
      (parseNum d).filter (fun d => decide (1 ≤ d ∧ d ≤ 25)))).orElse
      (fun _ => env.currentDay.map some) with
  | some (some d) => .ok d
  | some none => .error "Failed to parse argument \x27day\x27"
  | none => .error "Argument \x27day\x27 is required"

/-- Lines 38–47: resolve `year`, defaulting to the most recent event year and
validating the range `[2015, most_recent_year]`. -/
def resolveYear (env : Env) (args : Args) : Except String Nat :=
  match (args "year").map (fun y =>
      (parseNum y).filter (fun y => decide (2015 ≤ y ∧ y ≤ env.mostRecentYear))) with
  | some (some y) => .ok y
  | some none => .error "Failed to parse argument \x27year\x27"
  | none => .ok env.mostRecentYear

/-- Lines 49–54: resolve `p` from the fixed vocabulary `1` / `2` / `both`,
absent meaning `both`. -/
def resolveParts (args : Args) : Except String Parts :=
  match args "p" with
  | some "1" => .ok .P1
  | some "2" => .ok .P2
  | some "both" => .ok .Both
  | none => .ok .Both
  | some _ => .error "Failed to parse argument \x27p\x27"

/-- Lines 56–63: resolve `rows`, bounded to `[0, 200]`, defaulting to the
configured row count. -/
def resolveRows (env : Env) (args : Args) : Except String Nat :=
  match (args "rows").map (fun y =>
      (parseNum y).filter (fun x => decide (x ≤ 200))) with
  | some (some x) => .ok x
  | some none => .error "Failed to parse argument \x27rows\x27"
  | none => .ok env.leaderboardRows

/-- Lines 65–72: resolve `offset`, bounded to `[0, 200]`, defaulting to `0`. -/
def resolveOffset (args : Args) : Except String Nat :=
  match (args "offset").map (fun y =>
      (parseNum y).filter (fun x => decide (x ≤ 200))) with
  | some (some x) => .ok x
  | some none => .error "Failed to parse argument \x27offset\x27"
  | none => .ok 0

/-- The validated parameter set of one invocation. -/
structure Params where
  day : Nat
  year : Nat
  parts : Parts
  rows : Nat
  offset : Nat
deriving DecidableEq, Repr

/-- Lines 28–72 combined: the five resolution steps run in source order and
the first failing one's message short-circuits the invocation. -/
def resolveParams (env : Env) (args : Args) : Except String Params := do
  let day ← resolveDay env args
  let year ← resolveYear env args
  let parts ← resolveParts args
  let rows ← resolveRows env args
  let offset ← resolveOffset args
  pure { day := day, year := year, parts := parts, rows := rows, offset := offset }

/-- Insertion into a list sorted by descending local score, keeping the new
member before members of strictly smaller score. -/
def insertDesc (m : PrivateLeaderboardMember) :
    List PrivateLeaderboardMember → List PrivateLeaderboardMember
  | [] => [m]
  | x :: xs =>
    if m.local_score < x.local_score then x :: insertDesc m xs else m :: x :: xs

/-- Modelled from the spec: `PrivateLeaderboardMember`'s `Ord` used by
`members.sort_unstable()` (line 105) lives in `models.rs`, outside the given
source. The spec requires a total order "at minimum consistent with descending
local score" and leaves the tie-break open ("the tie-break among members with
identical local score is unspecified by the source"), so the model sorts by
descending `local_score` with a deterministic insertion sort. -/
def sortMembers (l : List PrivateLeaderboardMember) : List PrivateLeaderboardMember :=
  l.foldr insertDesc []

/-- Lines 122–133: the rank-assignment pass. The captured mutable state
`(last_score, rank)` starts at `(u32::MAX, 0)`; on each enumerated member
(0-based index `i`), when the score differs from `last_score` both are updated
(`rank := i + 1`), and the pair `(rank, member)` is emitted. -/
def assignRanksGo (lastScore rank i : Nat) :
    List PrivateLeaderboardMember → List (Nat × PrivateLeaderboardMember)
  | [] => []
  | m :: ms =>
    if m.local_score ≠ lastScore then
      (i + 1, m) :: assignRanksGo m.local_score (i + 1) (i + 1) ms
    else
      (rank, m) :: assignRanksGo lastScore rank (i + 1) ms

/-- The rank-assignment pass started from `last_score = u32::MAX`, `rank = 0`. -/
def assignRanks (members : List PrivateLeaderboardMember) :
    List (Nat × PrivateLeaderboardMember) :=
  assignRanksGo (2 ^ 32 - 1) 0 0 members

/-- Line 134: the zero-star filter applied to the ranked sequence. -/
def rankedFiltered (members : List PrivateLeaderboardMember) :
    List (Nat × PrivateLeaderboardMember) :=
  (assignRanks members).filter (fun r => decide (0 < r.2.stars))

/-- Lines 124–136: rank, filter, then `.skip(offset).take(rows)`. -/
def rankedRows (members : List PrivateLeaderboardMember) (offset rows : Nat) :
    List (Nat × PrivateLeaderboardMember) :=
  ((rankedFiltered members).drop offset).take rows

/-- Line 107–111: the parts suffix of the header title. -/
def partsTitle : Parts → String
  | .P1 => "/1"
  | .P2 => "/2"
  | .Both => ""

/-- Rust `format!("{day:02}")` for the day number. -/
def padDay (day : Nat) : String :=
  if day < 10 then "0" ++ toString day else toString day

/-- Lines 112–118: the fixed document header (title and table-header row). -/
def headerStr (year day : Nat) (parts : Parts) : String :=
  "\n<h3>Private Leaderboard (Advent of Code " ++ toString year ++ "/" ++
    padDay day ++ partsTitle parts ++ ")</h3>\n<table>\n" ++
    "<tr> <th>Rank</th> <th>Local Score</th> <th>Stars</th> <th>Completion</th> <th>AoC Name</th> <th>Matrix User</th> <th>Repository</th> </tr>\n"

/-- Lines 210–217: the document footer with the last-update stamp. -/
def footerStr (lastUpdate : String) : String :=
  "\n</table>\n<sup>Last update: " ++ lastUpdate ++ "</sup>\n"

/-- Lines 166–170: the emphasis marker pair `(m, m_)`: bold tags when the rank
is at most 3, the `Default::default()` empty pair otherwise. -/
def emphasisMarkers (rank : Nat) : String × String :=
  if rank ≤ 3 then ("<b>", "</b>") else ("", "")

/-- Lines 180–190: the start instant of the elapsed-time computation. `none`
models the panic of `.unwrap()` when the completion record is absent. -/
def elapsedStart (parts : Parts) (unlock : Int) (member : PrivateLeaderboardMember)
    (day : Nat) : Option Int :=
  match parts with
  | .P1 | .Both => some unlock
  | .P2 => (lookupCDL member.completion_day_level day).map (fun c => c.fst_get_star_ts)

/-- Lines 193–207: one `<tr>` row exactly as the `write!` literal lays it out,
with markers `m`, `m_` around rank, local score, stars, the elapsed delta, the
AoC name and the repository link, and no markers on the Matrix user cell or the
completion timestamp. -/
def rowMarkup (m m_ rankStr scoreStr starsStr completion delta name matrixName repo repoTitle :
    String) : String :=
  "\n<tr>\n    <td>" ++ m ++ rankStr ++ m_ ++ "</td>\n    <td>" ++ m ++ scoreStr ++ m_ ++
    "</td>\n    <td>" ++ m ++ starsStr ++ m_ ++ "</td>\n    <td>" ++ completion ++ "(" ++ m ++
    delta ++ m_ ++ ")</td>\n    <td>" ++ m ++ name ++ m_ ++ "</td>\n    <td>" ++ matrixName ++
    "</td>\n    <td>" ++ m ++ "<a href=\"" ++ repo ++ "\">" ++ repoTitle ++ "</a>" ++ m_ ++
    "</td>\n</tr>\n"

/-- Lines 138–208: render one ranked row. `none` models the `.unwrap()` panic
on a missing completion record under `Parts::P2`. -/
def renderRow (env : Env) (parts : Parts) (day : Nat) (unlock : Int) (rank : Nat)
    (member : PrivateLeaderboardMember) : Option String :=
  let name := member.displayName
  let matrixName := (env.matrixUri member.id).getD ""
  let repo := (env.repoOf member.id).getD ""
  let repoTitle := (env.repoRule repo).getD repo
  let mm := if rank ≤ 3 then ("<b>", "</b>") else ("", "")
  let rankStr := env.formatRank rank
  let completion := env.fmtCompletion member.last_star_ts
  match elapsedStart parts unlock member day with
  | none => none
  | some start =>
    let delta := env.fmtTimedelta (member.last_star_ts - start)
    some (rowMarkup mm.1 mm.2 rankStr (toString member.local_score) (toString member.stars)
      completion delta name matrixName repo repoTitle)

/-- The loop of lines 124–208: append each row's markup in order; a `none`
from any row (the `.unwrap()` panic) aborts the whole rendering. -/
def renderRowsList (env : Env) (parts : Parts) (day : Nat) (unlock : Int) :
    List (Nat × PrivateLeaderboardMember) → Option String
  | [] => some ""
  | (rank, member) :: rest =>
    match renderRow env parts day unlock rank member with
    | none => none
    | some s =>
      match renderRowsList env parts day unlock rest with
      | none => none
      | some r => some (s ++ r)

/-- Lines 104–217: the full document built for validated parameters and a
fetched snapshot (header, ranked/filtered/paginated rows, footer); `none`
models the rendering panic. -/
def renderDocument (env : Env) (p : Params) (lb : Leaderboard) (lastUpdateTs : Int) :
    Option String :=
  let members := sortMembers lb.members
  let unlock := env.unlockDatetime p.year p.day
  match renderRowsList env p.parts p.day unlock (rankedRows members p.offset p.rows) with
  | none => none
  | some body =>
    some (headerStr p.year p.day p.parts ++ body ++
      footerStr (env.fmtLastUpdate lastUpdateTs))

/-- `send_error(&room, event, msg)`: send the error text; a failing send
propagates as a fault. -/
def sendErrorResult (env : Env) (msg : String) : InvokeResult :=
  match env.send (.error msg) with
  | none => { sends := [(.error msg, none)], result := .ok () }
  | some e => { sends := [(.error msg, some e)], result := .error (.send e) }

/-- Lines 83–89: the user-facing message for a fetch failure that carries an
upstream HTTP status. -/
def fetchFailMsg (year : Nat) (status : String) : String :=
  "Failed to fetch private leaderboard for " ++ toString year ++ " (" ++ status ++ ")"

/-- Lines 80–96: classify a fetch failure: a `reqwest::Error` with a status
yields one user-facing reply and `Ok(())`; anything else propagates. -/
def fetchErrorResult (env : Env) (year : Nat) (e : FetchError) : InvokeResult :=
  match e with
  | .reqwest (some status) _ => sendErrorResult env (fetchFailMsg year status)
  | .reqwest none _ => { sends := [], result := .error (.fetch e) }
  | .other _ => { sends := [], result := .error (.fetch e) }

/-- Lines 227–231: the remediation text for an oversized document. -/
def tooLargeMsg : String :=
  "The requested leaderboard slice would be too large to fit in a matrix message. Try to reduce the number of rows."

/-- Lines 219–239: deliver the document; a `TooLarge` client-API error yields
one remediation reply and `Ok(())`, any other send error propagates. -/
def deliverResult (env : Env) (doc : String) : InvokeResult :=
  match env.send (.html doc) with
  | none => { sends := [(.html doc, none)], result := .ok () }
  | some err =>
    if err.errorKind = some .tooLarge then
      match env.send (.error tooLargeMsg) with
      | none =>
        { sends := [(.html doc, some err), (.error tooLargeMsg, none)], result := .ok () }
      | some e =>
        { sends := [(.html doc, some err), (.error tooLargeMsg, some e)],
          result := .error (.send e) }
    else
      { sends := [(.html doc, some err)], result := .error (.send err) }

/-- The whole of `invoke` (lines 22–240): resolve parameters, fetch, render,
deliver, classifying failures at the two external boundaries. -/
def invoke (env : Env) (args : Args) : InvokeResult :=
  match resolveParams env args with
  | .error msg => sendErrorResult env msg
  | .ok p =>
    match env.fetch p.year p.day p.parts with
    | .error e => fetchErrorResult env p.year e
    | .ok (lb, lastUpdateTs) =>
      match renderDocument env p lb lastUpdateTs with
      | none => { sends := [], result := .error .contractViolation }
      | some doc => deliverResult env doc

/-- Substring test on character lists, used to state that a message "names" a
field or "contains" a value. -/
def listContainsSeg (l p : List Char) : Bool :=
  (List.range (l.length + 1)).any (fun i => ((l.drop i).take p.length) == p)

/-- Substring test on strings. -/
def strContains (s p : String) : Bool :=
  listContainsSeg s.toList p.toList

/-- Specification-side rank assignment, written from the spec's words ("assign
rank = current 1-based position whenever the score changes from the previous
entry, otherwise reuse the last assigned rank"): the previous score is tracked
as `Option Nat` (the first entry has no previous entry, so its score always
counts as changed), to be compared with the source's sentinel-initialised
`assignRanks`. -/
def specDenseRanksGo (prevScore : Option Nat) (lastRank i : Nat) : List Nat → List Nat
  | [] => []
  | s :: rest =>
    if some s = prevScore then
      lastRank :: specDenseRanksGo (some s) lastRank (i + 1) rest
    else
      (i + 1) :: specDenseRanksGo (some s) (i + 1) (i + 1) rest

/-- Specification-side dense ranks of a score sequence. -/
def specDenseRanks (scores : List Nat) : List Nat :=
  specDenseRanksGo none 0 0 scores

/-- Modelled from the spec: the guarantee of `get_daily_private_leaderboard`
under scope `Parts::P2` ("a member with second-part data has necessarily
completed the first part"; the client is outside the given source): every
member with at least one star has a completion record for the requested day. -/
def secondPartContract (members : List PrivateLeaderboardMember) (day : Nat) : Prop :=
  ∀ m ∈ members, 0 < m.stars → (lookupCDL m.completion_day_level day).isSome

/-- A concrete member used in examples and counterexamples. -/
def exMember (ident score stars : Nat) : PrivateLeaderboardMember :=
  { id := ident
    displayName := "member" ++ toString ident
    local_score := score
    stars := stars
    last_star_ts := 100
    completion_day_level := [(5, { fst_get_star_ts := 10, snd_get_star_ts := some 20 })] }

/-- The member list of the spec's dense-ranking and pagination examples:
scores `[100, 100, 90, 80, 80, 80]`, all with stars > 0, sorted descending. -/
def exampleMembers : List PrivateLeaderboardMember :=
  [exMember 1 100 2, exMember 2 100 2, exMember 3 90 2,
   exMember 4 80 2, exMember 5 80 2, exMember 6 80 2]

/-- A member whose local score is exactly the `u32::MAX` sentinel that
initialises `last_score` in the rank-assignment pass. -/
def sentinelMember : PrivateLeaderboardMember :=
  exMember 1 4294967295 1

/-- A baseline collaborator environment for concrete witnesses. -/
def baseEnv : Env :=
  { currentDay := some 5
    mostRecentYear := 2024
    leaderboardRows := 20
    fetch := fun _ _ _ => .error (.other 0)
    fmtLastUpdate := fun _ => "2024-12-05 12:00:00+0100"
    unlockDatetime := fun _ _ => 0
    matrixUri := fun _ => none
    repoOf := fun _ => none
    repoRule := fun _ => none
    fmtCompletion := fun _ => "12:00:00"
    fmtTimedelta := fun t => toString t
    formatRank := fun r => toString r
    send := fun _ => none }

/-- An argument lookup with no arguments at all. -/
def noArgs : Args := fun _ => none

/-- An argument lookup carrying an out-of-range `day`. -/
def badDayArgs : Args := fun k => if k = "day" then some "26" else none

/-- An environment whose fetch fails with an upstream HTTP status. -/
def statusEnv : Env :=
  { baseEnv with fetch := fun _ _ _ => .error (.reqwest (some "503 Service Unavailable") 0) }

/-- An environment that fetches an empty leaderboard successfully. -/
def emptyFetchEnv : Env :=
  { baseEnv with fetch := fun _ _ _ => .ok ({ members := [] }, 0) }

/-- An environment that fetches an empty leaderboard and whose Matrix room
rejects the HTML document as too large while accepting error texts. -/
def tooLargeEnv : Env :=
  { emptyFetchEnv with
    send := fun r => match r with
      | .html _ => some { errorKind := some .tooLarge }
      | .error _ => none }

/-- The document delivered for an empty leaderboard in the witness scenarios
(default parameters: year 2024, day 5, scope both). -/
def emptyDoc : String :=
  headerStr 2024 5 .Both ++ "" ++ footerStr "2024-12-05 12:00:00+0100"

/-- A single-member leaderboard whose member has second-part data for day 5. -/
def p2Leaderboard : Leaderboard :=
  { members := [exMember 1 50 2] }

/-- The validated parameters of the scope-2 witness scenario. -/
def p2Params : Params :=
  { day := 5, year := 2024, parts := .P2, rows := 20, offset := 0 }

/-- The `send_error` text for an unparsable or out-of-range `day`. -/
def msgDayParse : String := "Failed to parse argument \x27day\x27"

/-- The `send_error` text for a missing `day` with no active event day. -/
def msgDayRequired : String := "Argument \x27day\x27 is required"

/-- The `send_error` text for an unparsable or out-of-range `year`. -/
def msgYearParse : String := "Failed to parse argument \x27year\x27"

/-- The `send_error` text for an unrecognised `p`. -/
def msgPParse : String := "Failed to parse argument \x27p\x27"

/-- The `send_error` text for an unparsable or out-of-range `rows`. -/
def msgRowsParse : String := "Failed to parse argument \x27rows\x27"

/-- The `send_error` text for an unparsable or out-of-range `offset`. -/
def msgOffsetParse : String := "Failed to parse argument \x27offset\x27"

/-! ## Helper lemmas about the rank-assignment pass -/

lemma assignRanksGo_map_snd (l : List PrivateLeaderboardMember) :
    ∀ ls r i, (assignRanksGo ls r i l).map Prod.snd = l := by
  induction l with
  | nil => intro ls r i; rfl
  | cons m ms ih =>
    intro ls r i
    simp only [assignRanksGo]
    split <;> simp [ih]

lemma assignRanks_map_snd (l : List PrivateLeaderboardMember) :
    (assignRanks l).map Prod.snd = l :=
  assignRanksGo_map_snd l _ _ _

lemma snd_mem_of_mem_assignRanks {l : List PrivateLeaderboardMember}
    {x : Nat × PrivateLeaderboardMember} (hx : x ∈ assignRanks l) : x.2 ∈ l := by
  have := List.mem_map_of_mem Prod.snd hx
  rwa [assignRanks_map_snd] at this

lemma assignRanksGo_spec (l : List PrivateLeaderboardMember) :
    ∀ ls r i, (assignRanksGo ls r i l).map Prod.fst =
      specDenseRanksGo (some ls) r i (l.map (fun m => m.local_score)) := by
  induction l with
  | nil => intro ls r i; rfl
  | cons m ms ih =>
    intro ls r i
    simp only [assignRanksGo, specDenseRanksGo, List.map_cons]
    by_cases h : m.local_score = ls
    · simp [h, ih]
    · simp [h, Ne.symm h, ih]

lemma assignRanks_spec (l : List PrivateLeaderboardMember)
    (h : ∀ m ∈ l, m.local_score < 2 ^ 32 - 1) :
    (assignRanks l).map Prod.fst = specDenseRanks (l.map (fun m => m.local_score)) := by
  cases l with
  | nil => rfl
  | cons m ms =>
    have hm : m.local_score ≠ 2 ^ 32 - 1 :=
      Nat.ne_of_lt (h m (List.mem_cons_self m ms))
    simp only [assignRanks, assignRanksGo, specDenseRanks, specDenseRanksGo, List.map_cons]
    rw [if_pos hm]
    simp [assignRanksGo_spec]

lemma assignRanksGo_rank_of_score_eq (l : List PrivateLeaderboardMember) :
    ∀ ls r i, l.Pairwise (fun a b => b.local_score ≤ a.local_score) →
      (∀ m ∈ l, m.local_score ≤ ls) →
      ∀ a ∈ assignRanksGo ls r i l, a.2.local_score = ls → a.1 = r := by
  induction l with
  | nil => intro ls r i _ _ a ha; exact absurd ha (List.not_mem_nil a)
  | cons m ms ih =>
    intro ls r i hpair hle a ha hsc
    rcases List.pairwise_cons.mp hpair with ⟨hm, hp⟩
    simp only [assignRanksGo] at ha
    by_cases h : m.local_score = ls
    · rw [if_neg (fun hne => hne h)] at ha
      rcases List.mem_cons.mp ha with rfl | htail
      · rfl
      · exact ih ls r (i + 1) hp (fun x hx => (hm x hx).trans h.le) a htail hsc
    · rw [if_pos h] at ha
      rcases List.mem_cons.mp ha with rfl | htail
      · exact absurd hsc h
      · have hmem : a.2 ∈ ms := by
          have := List.mem_map_of_mem Prod.snd htail
          rwa [assignRanksGo_map_snd] at this
        have : a.2.local_score < ls :=
          lt_of_le_of_lt (hm a.2 hmem) (lt_of_le_of_ne (hle m (List.mem_cons_self m ms)) h)
        exact absurd hsc (Nat.ne_of_lt this)

lemma assignRanksGo_tie_shared (l : List PrivateLeaderboardMember) :
    ∀ ls r i, l.Pairwise (fun a b => b.local_score ≤ a.local_score) →
      (∀ m ∈ l, m.local_score ≤ ls) →
      ∀ a ∈ assignRanksGo ls r i l, ∀ b ∈ assignRanksGo ls r i l,
        a.2.local_score = b.2.local_score → a.1 = b.1 := by
  induction l with
  | nil => intro ls r i _ _ a ha; exact absurd ha (List.not_mem_nil a)
  | cons m ms ih =>
    intro ls r i hpair hle a ha b hb hsc
    rcases List.pairwise_cons.mp hpair with ⟨hm, hp⟩
    simp only [assignRanksGo] at ha hb
    by_cases h : m.local_score = ls
    · rw [if_neg (fun hne => hne h)] at ha hb
      have hle' : ∀ x ∈ ms, x.local_score ≤ ls := fun x hx => (hm x hx).trans h.le
      rcases List.mem_cons.mp ha with rfl | hta
      · rcases List.mem_cons.mp hb with rfl | htb
        · rfl
        · exact (assignRanksGo_rank_of_score_eq ms ls r (i + 1) hp hle' b htb
            (by rw [← hsc]; exact h)).symm
      · rcases List.mem_cons.mp hb with rfl | htb
        · exact assignRanksGo_rank_of_score_eq ms ls r (i + 1) hp hle' a hta
            (by rw [hsc]; exact h)
        · exact ih ls r (i + 1) hp hle' a hta b htb hsc
    · rw [if_pos h] at ha hb
      rcases List.mem_cons.mp ha with rfl | hta
      · rcases List.mem_cons.mp hb with rfl | htb
        · rfl
        · exact (assignRanksGo_rank_of_score_eq ms m.local_score (i + 1) (i + 1) hp hm b htb
            (by rw [← hsc])).symm
      · rcases List.mem_cons.mp hb with rfl | htb
        · exact assignRanksGo_rank_of_score_eq ms m.local_score (i + 1) (i + 1) hp hm a hta
            (by rw [hsc])
        · exact ih m.local_score (i + 1) (i + 1) hp hm a hta b htb hsc

instance : IsTrans PrivateLeaderboardMember (fun a b => b.local_score ≤ a.local_score) :=
  ⟨fun _ _ _ h1 h2 => h2.trans h1⟩

/-- C1: for every member list sorted consistently with descending local score
in which every member has stars > 0 (and, as the counterexample forces, local
score below the `u32::MAX` sentinel), the rank-assignment pass keeps every
member (the zero-star filter removes nothing), preserves the member order,
computes exactly the spec's dense ranks (rank = 1-based position whenever the
score changes from the previous entry, otherwise the last assigned rank),
gives tied scores one shared rank, and in particular maps the score sequence
`[100, 100, 90, 80, 80, 80]` to ranks `[1, 1, 3, 4, 4, 4]`. -/
theorem rank_assignment_dense (l : List PrivateLeaderboardMember)
    (hsorted : l.Chain' (fun a b => b.local_score ≤ a.local_score))
    (hstars : ∀ m ∈ l, 0 < m.stars)
    (hmax : ∀ m ∈ l, m.local_score < 2 ^ 32 - 1) :
    rankedFiltered l = assignRanks l ∧
    (assignRanks l).map Prod.snd = l ∧
    (assignRanks l).map Prod.fst = specDenseRanks (l.map (fun m => m.local_score)) ∧
    (∀ a ∈ assignRanks l, ∀ b ∈ assignRanks l,
      a.2.local_score = b.2.local_score → a.1 = b.1) ∧
    (l.map (fun m => m.local_score) = [100, 100, 90, 80, 80, 80] →
      (assignRanks l).map Prod.fst = [1, 1, 3, 4, 4, 4]) := by
  have hspec := assignRanks_spec l hmax
  refine ⟨?_, assignRanks_map_snd l, hspec, ?_, ?_⟩
  · exact List.filter_eq_self.mpr fun x hx =>
      decide_eq_true (hstars x.2 (snd_mem_of_mem_assignRanks hx))
  · exact assignRanksGo_tie_shared l (2 ^ 32 - 1) 0 0
      (List.chain'_iff_pairwise.mp hsorted) (fun m hm => (hmax m hm).le)
  · intro hscores
    rw [hspec, hscores]
    decide

/-- C1 counterexample: a single member whose local score is exactly the
sentinel `u32::MAX = 4294967295` (trivially sorted, stars > 0) is assigned
rank 0 by the pass, not its 1-based position 1. -/
theorem rank_assignment_dense_cex :
    0 < sentinelMember.stars ∧
    [sentinelMember].Chain' (fun a b => b.local_score ≤ a.local_score) ∧
    (assignRanks [sentinelMember]).map Prod.fst = [0] ∧
    specDenseRanks ([sentinelMember].map (fun m => m.local_score)) = [1] :=
  ⟨by decide, List.chain'_singleton sentinelMember, by decide, by decide⟩

/-- C1 witness: the amended theorem applied to the spec's six-member example. -/
theorem rank_assignment_dense_witness :
    (assignRanks exampleMembers).map Prod.fst = [1, 1, 3, 4, 4, 4] :=
  (rank_assignment_dense exampleMembers
    (by norm_num [exampleMembers, exMember, List.chain'_cons, List.chain'_singleton])
    (by decide) (by decide)).2.2.2.2 (by decide)

/-- C7: for every member list and every offset/limit, a member appearing in
the ranked output has at least one star: a zero-star member never appears,
regardless of score. -/
theorem zero_star_never_output (members : List PrivateLeaderboardMember)
    (offset rows : Nat) (x : Nat × PrivateLeaderboardMember)
    (hx : x ∈ rankedRows members offset rows) : 0 < x.2.stars := by
  simp only [rankedRows] at hx
  have h2 := List.mem_of_mem_drop (List.mem_of_mem_take hx)
  simp only [rankedFiltered] at h2
  simpa using List.of_mem_filter h2

/-- C7 witness: the third example member reaches the paginated output, hence
has a positive star count. -/
theorem zero_star_never_output_witness : 0 < ((3, exMember 3 90 2) :
    Nat × PrivateLeaderboardMember).2.stars :=
  zero_star_never_output exampleMembers 2 2 (3, exMember 3 90 2) (by decide)

/-- C8: offset and limit are applied as skip-then-take to the filtered ranked
sequence (so element `i` of the page is element `offset + i` of the filtered
view), and on the spec's example (six filtered entries with ranks
`[1, 1, 3, 4, 4, 4]`) offset 2 and limit 2 yield exactly the 3rd and 4th
filtered entries. -/
theorem pagination_skip_take (members : List PrivateLeaderboardMember)
    (offset rows : Nat) :
    rankedRows members offset rows = ((rankedFiltered members).drop offset).take rows ∧
    (∀ i, i < rows →
      (rankedRows members offset rows)[i]? = (rankedFiltered members)[offset + i]?) ∧
    rankedRows exampleMembers 2 2 = [(3, exMember 3 90 2), (4, exMember 4 80 2)] ∧
    (rankedFiltered exampleMembers).map Prod.snd = exampleMembers := by
  refine ⟨rfl, ?_, by decide, by decide⟩
  intro i hi
  simp [rankedRows, List.getElem?_take, List.getElem?_drop, hi]

/-- C8 witness: the first element of the page at offset 2 is the third
filtered entry. -/
theorem pagination_skip_take_witness :
    (rankedRows exampleMembers 2 2)[0]? = (rankedFiltered exampleMembers)[2]? :=
  (pagination_skip_take exampleMembers 2 2).2.1 0 (by decide)

/-! ## Helper lemmas about parameter resolution -/

lemma resolveDay_arg_invalid (env : Env) (args : Args) (s : String)
    (h : args "day" = some s)
    (hp : (parseNum s).filter (fun d => decide (1 ≤ d ∧ d ≤ 25)) = none) :
    resolveDay env args = .error msgDayParse := by
  simp only [resolveDay, h, Option.map_some', Option.orElse]
  rw [hp]
  rfl

lemma resolveDay_missing (env : Env) (args : Args) (h : args "day" = none)
    (hc : env.currentDay = none) : resolveDay env args = .error msgDayRequired := by
  simp only [resolveDay, h, Option.map_none', hc, Option.orElse]
  rfl

lemma resolveDay_fallback (env : Env) (args : Args) (d : Nat) (h : args "day" = none)
    (hc : env.currentDay = some d) : resolveDay env args = .ok d := by
  simp [resolveDay, h, hc, Option.orElse]

lemma resolveYear_arg_invalid (env : Env) (args : Args) (s : String)
    (h : args "year" = some s)
    (hp : (parseNum s).filter (fun y => decide (2015 ≤ y ∧ y ≤ env.mostRecentYear)) = none) :
    resolveYear env args = .error msgYearParse := by
  simp only [resolveYear, h, Option.map_some']
  rw [hp]
  rfl

lemma resolveYear_default (env : Env) (args : Args) (h : args "year" = none) :
    resolveYear env args = .ok env.mostRecentYear := by
  simp only [resolveYear, h, Option.map_none']

lemma resolveParts_arg_invalid (args : Args) (s : String) (h : args "p" = some s)
    (h1 : s ≠ "1") (h2 : s ≠ "2") (h3 : s ≠ "both") :
    resolveParts args = .error msgPParse := by
  simp only [resolveParts, h]
  rfl

lemma resolveRows_arg_invalid (env : Env) (args : Args) (s : String)
    (h : args "rows" = some s)
    (hp : (parseNum s).filter (fun x => decide (x ≤ 200)) = none) :
    resolveRows env args = .error msgRowsParse := by
  simp only [resolveRows, h, Option.map_some']
  rw [hp]
  rfl

lemma resolveRows_default (env : Env) (args : Args) (h : args "rows" = none) :
    resolveRows env args = .ok env.leaderboardRows := by
  simp only [resolveRows, h, Option.map_none']

lemma resolveOffset_arg_invalid (args : Args) (s : String)
    (h : args "offset" = some s)
    (hp : (parseNum s).filter (fun x => decide (x ≤ 200)) = none) :
    resolveOffset args = .error msgOffsetParse := by
  simp only [resolveOffset, h, Option.map_some']
  rw [hp]
  rfl

lemma resolveOffset_default (args : Args) (h : args "offset" = none) :
    resolveOffset args = .ok 0 := by
  simp only [resolveOffset, h, Option.map_none']

lemma resolveParams_err_day (env : Env) (args : Args) (m : String)
    (hd : resolveDay env args = .error m) : resolveParams env args = .error m := by
  simp only [resolveParams, hd]
  rfl

lemma resolveParams_err_year (env : Env) (args : Args) (d : Nat) (m : String)
    (hd : resolveDay env args = .ok d) (hy : resolveYear env args = .error m) :
    resolveParams env args = .error m := by
  simp only [resolveParams, hd, hy]
  rfl

lemma resolveParams_err_parts (env : Env) (args : Args) (d y : Nat) (m : String)
    (hd : resolveDay env args = .ok d) (hy : resolveYear env args = .ok y)
    (hpa : resolveParts args = .error m) : resolveParams env args = .error m := by
  simp only [resolveParams, hd, hy, hpa]
  rfl

lemma resolveParams_err_rows (env : Env) (args : Args) (d y : Nat) (pa : Parts) (m : String)
    (hd : resolveDay env args = .ok d) (hy : resolveYear env args = .ok y)
    (hpa : resolveParts args = .ok pa) (hr : resolveRows env args = .error m) :
    resolveParams env args = .error m := by
  simp only [resolveParams, hd, hy, hpa, hr]
  rfl

lemma resolveParams_err_offset (env : Env) (args : Args) (d y : Nat) (pa : Parts) (r : Nat)
    (m : String) (hd : resolveDay env args = .ok d) (hy : resolveYear env args = .ok y)
    (hpa : resolveParts args = .ok pa) (hr : resolveRows env args = .ok r)
    (ho : resolveOffset args = .error m) : resolveParams env args = .error m := by
  simp only [resolveParams, hd, hy, hpa, hr, ho]
  rfl

lemma resolveParams_all_ok (env : Env) (args : Args) (d y : Nat) (pa : Parts) (r o : Nat)
    (hd : resolveDay env args = .ok d) (hy : resolveYear env args = .ok y)
    (hpa : resolveParts args = .ok pa) (hr : resolveRows env args = .ok r)
    (ho : resolveOffset args = .ok o) :
    resolveParams env args = .ok { day := d, year := y, parts := pa, rows := r, offset := o } := by
  simp only [resolveParams, hd, hy, hpa, hr, ho]
  rfl

lemma invoke_userError (env : Env) (args : Args) (msg : String)
    (h : resolveParams env args = .error msg) (hs : env.send (.error msg) = none) :
    invoke env args = { sends := [(.error msg, none)], result := .ok () } := by
  simp [invoke, h, sendErrorResult, hs]

/-- C2: parameter resolution settles before any external call. Each
invalid-or-missing case below fixes the entire observable outcome of `invoke`
to a single user-facing reply naming the offending field and an `Ok` return —
for every environment, so the outcome is independent of the fetch and delivery
collaborators. A present but unparsable or out-of-range `day`/`year`/`p`/
`rows`/`offset` yields the parse message for that field; a missing `day` with
no active event day yields the required-argument message; an absent `year`,
`rows`, `offset` falls back to the most recent event year, the configured
default row count, and 0 respectively. -/
theorem parameter_resolution_shortcircuit (env : Env) (args : Args) :
    (∀ s, args "day" = some s →
      (parseNum s).filter (fun d => decide (1 ≤ d ∧ d ≤ 25)) = none →
      env.send (.error msgDayParse) = none →
      invoke env args = { sends := [(.error msgDayParse, none)], result := .ok () }) ∧
    (args "day" = none → env.currentDay = none →
      env.send (.error msgDayRequired) = none →
      invoke env args = { sends := [(.error msgDayRequired, none)], result := .ok () }) ∧
    (∀ d, args "day" = none → env.currentDay = some d → resolveDay env args = .ok d) ∧
    (∀ s d, resolveDay env args = .ok d → args "year" = some s →
      (parseNum s).filter (fun y => decide (2015 ≤ y ∧ y ≤ env.mostRecentYear)) = none →
      env.send (.error msgYearParse) = none →
      invoke env args = { sends := [(.error msgYearParse, none)], result := .ok () }) ∧
    (args "year" = none → resolveYear env args = .ok env.mostRecentYear) ∧
    (∀ s d y, resolveDay env args = .ok d → resolveYear env args = .ok y →
      args "p" = some s → s ≠ "1" → s ≠ "2" → s ≠ "both" →
      env.send (.error msgPParse) = none →
      invoke env args = { sends := [(.error msgPParse, none)], result := .ok () }) ∧
    (∀ s d y pa, resolveDay env args = .ok d → resolveYear env args = .ok y →
      resolveParts args = .ok pa → args "rows" = some s →
      (parseNum s).filter (fun x => decide (x ≤ 200)) = none →
      env.send (.error msgRowsParse) = none →
      invoke env args = { sends := [(.error msgRowsParse, none)], result := .ok () }) ∧
    (args "rows" = none → resolveRows env args = .ok env.leaderboardRows) ∧
    (∀ s d y pa r, resolveDay env args = .ok d → resolveYear env args = .ok y →
      resolveParts args = .ok pa → resolveRows env args = .ok r →
      args "offset" = some s →
      (parseNum s).filter (fun x => decide (x ≤ 200)) = none →
      env.send (.error msgOffsetParse) = none →
      invoke env args = { sends := [(.error msgOffsetParse, none)], result := .ok () }) ∧
    (args "offset" = none → resolveOffset args = .ok 0) ∧
    (strContains msgDayParse "day" ∧ strContains msgDayRequired "day" ∧
      strContains msgYearParse "year" ∧ strContains msgPParse "p" ∧
      strContains msgRowsParse "rows" ∧ strContains msgOffsetParse "offset") := by
  refine ⟨?_, ?_, ?_, ?_, ?_, ?_, ?_, ?_, ?_, ?_, by decide⟩
  · intro s h hp hs
    exact invoke_userError env args _
      (resolveParams_err_day env args _ (resolveDay_arg_invalid env args s h hp)) hs
  · intro h hc hs
    exact invoke_userError env args _
      (resolveParams_err_day env args _ (resolveDay_missing env args h hc)) hs
  · intro d h hc
    exact resolveDay_fallback env args d h hc
  · intro s d hd h hp hs
    exact invoke_userError env args _
      (resolveParams_err_year env args d _ hd (resolveYear_arg_invalid env args s h hp)) hs
  · intro h
    exact resolveYear_default env args h
  · intro s d y hd hy h h1 h2 h3 hs
    exact invoke_userError env args _
      (resolveParams_err_parts env args d y _ hd hy
        (resolveParts_arg_invalid args s h h1 h2 h3)) hs
  · intro s d y pa hd hy hpa h hp hs
    exact invoke_userError env args _
      (resolveParams_err_rows env args d y pa _ hd hy hpa
        (resolveRows_arg_invalid env args s h hp)) hs
  · intro h
    exact resolveRows_default env args h
  · intro s d y pa r hd hy hpa hr h hp hs
    exact invoke_userError env args _
      (resolveParams_err_offset env args d y pa r _ hd hy hpa hr
        (resolveOffset_arg_invalid args s h hp)) hs
  · intro h
    exact resolveOffset_default args h

/-- C2 witness: an out-of-range `day` argument (`26`) short-circuits the
invocation with the day parse message. -/
theorem parameter_resolution_shortcircuit_witness :
    invoke baseEnv badDayArgs = { sends := [(.error msgDayParse, none)], result := .ok () } :=
  (parameter_resolution_shortcircuit baseEnv badDayArgs).1 "26" rfl (by decide) rfl

/-! ## Helper lemmas about message containment and the fetch/delivery stages -/

lemma listContainsSeg_append2 (a b c : List Char) :
    listContainsSeg (a ++ (b ++ c)) b = true := by
  apply List.any_eq_true.mpr
  refine ⟨a.length, List.mem_range.mpr (by simp [List.length_append]; omega), ?_⟩
  rw [List.drop_left, List.take_left]
  exact beq_self_eq_true b

lemma fetchFailMsg_contains_year (y : Nat) (st : String) :
    strContains (fetchFailMsg y st) (toString y) = true := by
  have h : (fetchFailMsg y st).toList =
      "Failed to fetch private leaderboard for ".toList ++
        ((toString y).toList ++ (" (".toList ++ (st.toList ++ ")".toList))) := by
    simp [fetchFailMsg, String.toList, String.data_append, List.append_assoc]
  simp only [strContains, h]
  exact listContainsSeg_append2 _ _ _

lemma fetchFailMsg_contains_status (y : Nat) (st : String) :
    strContains (fetchFailMsg y st) st = true := by
  have h : (fetchFailMsg y st).toList =
      ("Failed to fetch private leaderboard for ".toList ++
        ((toString y).toList ++ " (".toList)) ++ (st.toList ++ ")".toList) := by
    simp [fetchFailMsg, String.toList, String.data_append, List.append_assoc]
  simp only [strContains, h]
  exact listContainsSeg_append2 _ _ _

lemma invoke_fetch_err (env : Env) (args : Args) (p : Params) (e : FetchError)
    (hp : resolveParams env args = .ok p)
    (hf : env.fetch p.year p.day p.parts = .error e) :
    invoke env args = fetchErrorResult env p.year e := by
  simp [invoke, hp, hf]

lemma invoke_fetched (env : Env) (args : Args) (p : Params) (lb : Leaderboard) (ts : Int)
    (hp : resolveParams env args = .ok p)
    (hf : env.fetch p.year p.day p.parts = .ok (lb, ts)) :
    invoke env args =
      match renderDocument env p lb ts with
      | none => { sends := [], result := .error .contractViolation }
      | some doc => deliverResult env doc := by
  simp [invoke, hp, hf]

/-- C3: when the fetch fails with an error that downcasts to a transport error
carrying an HTTP status, `invoke` sends exactly one user-facing reply whose
text contains both the requested year and the status, and returns `Ok`; every
other fetch failure shape is propagated as a fault with no reply at all. -/
theorem fetch_error_reporting (env : Env) (args : Args) (p : Params) (e : FetchError)
    (hp : resolveParams env args = .ok p)
    (hf : env.fetch p.year p.day p.parts = .error e) :
    (∀ status tag, e = .reqwest (some status) tag →
      strContains (fetchFailMsg p.year status) (toString p.year) = true ∧
      strContains (fetchFailMsg p.year status) status = true ∧
      (env.send (.error (fetchFailMsg p.year status)) = none →
        invoke env args =
          { sends := [(.error (fetchFailMsg p.year status), none)], result := .ok () })) ∧
    ((∀ status tag, e ≠ .reqwest (some status) tag) →
      invoke env args = { sends := [], result := .error (.fetch e) }) := by
  constructor
  · rintro status tag rfl
    refine ⟨fetchFailMsg_contains_year p.year status,
      fetchFailMsg_contains_status p.year status, ?_⟩
    intro hs
    rw [invoke_fetch_err env args p _ hp hf]
    simp [fetchErrorResult, sendErrorResult, hs]
  · intro hne
    rw [invoke_fetch_err env args p e hp hf]
    cases e with
    | reqwest st tag =>
      cases st with
      | some s => exact absurd rfl (hne s tag)
      | none => rfl
    | other tag => rfl

/-- C3 witness: a fetch failing with status text `503 Service Unavailable`
yields the single reply naming year 2024 and the status, and `Ok`. -/
theorem fetch_error_reporting_witness :
    invoke statusEnv noArgs =
      { sends := [(.error (fetchFailMsg 2024 "503 Service Unavailable"), none)],
        result := .ok () } :=
  ((fetch_error_reporting statusEnv noArgs
      { day := 5, year := 2024, parts := .Both, rows := 20, offset := 0 }
      (.reqwest (some "503 Service Unavailable") 0) rfl rfl).1
    "503 Service Unavailable" 0 rfl).2.2 rfl

/-- C4: when delivery of the rendered document fails with the `TooLarge`
client-API error kind, `invoke` sends one remediation reply (its text suggests
reducing the row count), attempts the document delivery exactly once, and
returns `Ok`; any other delivery failure is propagated as a fault with no
further reply. -/
theorem delivery_too_large_reporting (env : Env) (args : Args) (p : Params)
    (lb : Leaderboard) (ts : Int) (doc : String) (err : MatrixError)
    (hp : resolveParams env args = .ok p)
    (hf : env.fetch p.year p.day p.parts = .ok (lb, ts))
    (hr : renderDocument env p lb ts = some doc)
    (he : env.send (.html doc) = some err) :
    (err.errorKind = some .tooLarge → env.send (.error tooLargeMsg) = none →
      invoke env args =
        { sends := [(.html doc, some err), (.error tooLargeMsg, none)],
          result := .ok () } ∧
      ((invoke env args).sends.filter (fun r => r.1 == Reply.html doc)).length = 1 ∧
      strContains tooLargeMsg "reduce the number of rows" = true) ∧
    (err.errorKind ≠ some .tooLarge →
      invoke env args = { sends := [(.html doc, some err)], result := .error (.send err) }) := by
  have hstage := invoke_fetched env args p lb ts hp hf
  rw [hr] at hstage
  constructor
  · intro hk hs
    have hres : invoke env args =
        { sends := [(.html doc, some err), (.error tooLargeMsg, none)], result := .ok () } := by
      rw [hstage]
      simp [deliverResult, he, hk, hs]
    refine ⟨hres, ?_, by decide⟩
    rw [hres]
    simp [List.filter_cons, beq_iff_eq]
  · intro hk
    rw [hstage]
    simp [deliverResult, he, hk]

/-- C4 witness: a room rejecting the empty-leaderboard document as too large
gets exactly one remediation reply and `Ok`. -/
theorem delivery_too_large_reporting_witness :
    invoke tooLargeEnv noArgs =
      { sends := [(.html emptyDoc, some { errorKind := some .tooLarge }),
                  (.error tooLargeMsg, none)], result := .ok () } :=
  ((delivery_too_large_reporting tooLargeEnv noArgs
      { day := 5, year := 2024, parts := .Both, rows := 20, offset := 0 }
      { members := [] } 0 emptyDoc { errorKind := some .tooLarge }
      rfl rfl rfl rfl).1 rfl rfl).1

/-! ## Helper lemmas about rendering -/

lemma renderRow_eq (env : Env) (parts : Parts) (day : Nat) (unlock : Int) (rank : Nat)
    (m : PrivateLeaderboardMember) :
    renderRow env parts day unlock rank m =
      (elapsedStart parts unlock m day).map (fun start =>
        rowMarkup (emphasisMarkers rank).1 (emphasisMarkers rank).2
          (env.formatRank rank) (toString m.local_score) (toString m.stars)
          (env.fmtCompletion m.last_star_ts) (env.fmtTimedelta (m.last_star_ts - start))
          m.displayName ((env.matrixUri m.id).getD "") ((env.repoOf m.id).getD "")
          ((env.repoRule ((env.repoOf m.id).getD "")).getD ((env.repoOf m.id).getD ""))) := by
  cases h : elapsedStart parts unlock m day with
  | none => simp [renderRow, h]
  | some s => simp [renderRow, emphasisMarkers, h]

lemma renderRow_isSome (env : Env) (parts : Parts) (day : Nat) (unlock : Int) (rank : Nat)
    (m : PrivateLeaderboardMember) :
    (renderRow env parts day unlock rank m).isSome = (elapsedStart parts unlock m day).isSome := by
  rw [renderRow_eq]
  cases elapsedStart parts unlock m day <;> rfl

lemma renderRowsList_isSome (env : Env) (parts : Parts) (day : Nat) (unlock : Int)
    (rows : List (Nat × PrivateLeaderboardMember))
    (h : ∀ x ∈ rows, (renderRow env parts day unlock x.1 x.2).isSome = true) :
    (renderRowsList env parts day unlock rows).isSome = true := by
  induction rows with
  | nil => rfl
  | cons x xs ih =>
    obtain ⟨s, hs⟩ := Option.isSome_iff_exists.mp (h x (List.mem_cons_self x xs))
    obtain ⟨r, hr⟩ :=
      Option.isSome_iff_exists.mp (ih (fun y hy => h y (List.mem_cons_of_mem x hy)))
    cases x with
    | mk rank m => simp [renderRowsList, hs, hr]

lemma mem_insertDesc {a m : PrivateLeaderboardMember} {l : List PrivateLeaderboardMember} :
    a ∈ insertDesc m l ↔ a = m ∨ a ∈ l := by
  induction l with
  | nil => simp [insertDesc]
  | cons x xs ih =>
    simp only [insertDesc]
    split
    · simp only [List.mem_cons, ih]
      tauto
    · simp [List.mem_cons]

lemma mem_sortMembers {a : PrivateLeaderboardMember} {l : List PrivateLeaderboardMember} :
    a ∈ sortMembers l ↔ a ∈ l := by
  induction l with
  | nil => simp [sortMembers]
  | cons x xs ih =>
    simp only [sortMembers, List.foldr_cons] at *
    rw [mem_insertDesc, ih, List.mem_cons]

lemma snd_mem_of_mem_rankedRows {l : List PrivateLeaderboardMember} {offset rows : Nat}
    {x : Nat × PrivateLeaderboardMember} (hx : x ∈ rankedRows l offset rows) : x.2 ∈ l := by
  simp only [rankedRows] at hx
  have h2 := List.mem_of_mem_drop (List.mem_of_mem_take hx)
  simp only [rankedFiltered] at h2
  exact snd_mem_of_mem_assignRanks (List.mem_of_mem_filter h2)

lemma stars_pos_of_mem_rankedRows {l : List PrivateLeaderboardMember} {offset rows : Nat}
    {x : Nat × PrivateLeaderboardMember} (hx : x ∈ rankedRows l offset rows) :
    0 < x.2.stars := by
  simp only [rankedRows] at hx
  have h2 := List.mem_of_mem_drop (List.mem_of_mem_take hx)
  simp only [rankedFiltered] at h2
  simpa using List.of_mem_filter h2

/-- C5: the start instant of the elapsed-time computation is the day's public
unlock instant for scope `FirstPart` or `Both`, and the member's own
first-part completion timestamp for `SecondPart`; the rendered row's elapsed
delta is `fmt_timedelta(last_star_ts - start)` with exactly this start. -/
theorem elapsed_start_by_scope :
    (∀ (unlock : Int) (m : PrivateLeaderboardMember) (day : Nat),
      elapsedStart .P1 unlock m day = some unlock) ∧
    (∀ (unlock : Int) (m : PrivateLeaderboardMember) (day : Nat),
      elapsedStart .Both unlock m day = some unlock) ∧
    (∀ (unlock : Int) (m : PrivateLeaderboardMember) (day : Nat) (c : CompletionDayLevel),
      lookupCDL m.completion_day_level day = some c →
      elapsedStart .P2 unlock m day = some c.fst_get_star_ts) ∧
    (∀ (env : Env) (parts : Parts) (day : Nat) (unlock : Int) (rank : Nat)
        (m : PrivateLeaderboardMember) (start : Int),
      elapsedStart parts unlock m day = some start →
      renderRow env parts day unlock rank m =
        some (rowMarkup (emphasisMarkers rank).1 (emphasisMarkers rank).2
          (env.formatRank rank) (toString m.local_score) (toString m.stars)
          (env.fmtCompletion m.last_star_ts) (env.fmtTimedelta (m.last_star_ts - start))
          m.displayName ((env.matrixUri m.id).getD "") ((env.repoOf m.id).getD "")
          ((env.repoRule ((env.repoOf m.id).getD "")).getD ((env.repoOf m.id).getD "")))) := by
  refine ⟨fun _ _ _ => rfl, fun _ _ _ => rfl, ?_, ?_⟩
  · intro unlock m day c hc
    simp [elapsedStart, hc]
  · intro env parts day unlock rank m start hs
    rw [renderRow_eq, hs]
    rfl

/-- C5 witness: under scope 2 the start is the member's own first-part star
timestamp (10), not the unlock instant (0). -/
theorem elapsed_start_by_scope_witness :
    elapsedStart .P2 0 (exMember 1 50 2) 5 = some 10 :=
  elapsed_start_by_scope.2.2.1 0 (exMember 1 50 2) 5
    { fst_get_star_ts := 10, snd_get_star_ts := some 20 } rfl

/-- C9: the emphasis marker pair is the bold pair exactly for ranks at most 3
and the empty pair otherwise; every successfully rendered row is the row
template with the bold markers when its rank is at most 3 and with empty
markers when it is greater; and every paginated row is a row of the
pre-pagination filtered ranked sequence, so its rank (and hence its emphasis)
is independent of offset and limit. -/
theorem emphasis_top_three :
    (∀ rank, emphasisMarkers rank = ("<b>", "</b>") ↔ rank ≤ 3) ∧
    (∀ rank, emphasisMarkers rank = ("", "") ↔ ¬rank ≤ 3) ∧
    (∀ (env : Env) (parts : Parts) (day : Nat) (unlock : Int) (rank : Nat)
        (m : PrivateLeaderboardMember) (s : String),
      renderRow env parts day unlock rank m = some s →
      (rank ≤ 3 → ∃ start, elapsedStart parts unlock m day = some start ∧
        s = rowMarkup "<b>" "</b>" (env.formatRank rank) (toString m.local_score)
          (toString m.stars) (env.fmtCompletion m.last_star_ts)
          (env.fmtTimedelta (m.last_star_ts - start)) m.displayName
          ((env.matrixUri m.id).getD "") ((env.repoOf m.id).getD "")
          ((env.repoRule ((env.repoOf m.id).getD "")).getD ((env.repoOf m.id).getD ""))) ∧
      (¬rank ≤ 3 → ∃ start, elapsedStart parts unlock m day = some start ∧
        s = rowMarkup "" "" (env.formatRank rank) (toString m.local_score)
          (toString m.stars) (env.fmtCompletion m.last_star_ts)
          (env.fmtTimedelta (m.last_star_ts - start)) m.displayName
          ((env.matrixUri m.id).getD "") ((env.repoOf m.id).getD "")
          ((env.repoRule ((env.repoOf m.id).getD "")).getD ((env.repoOf m.id).getD "")))) ∧
    (∀ (members : List PrivateLeaderboardMember) (offset rows : Nat)
        (x : Nat × PrivateLeaderboardMember),
      x ∈ rankedRows members offset rows → x ∈ rankedFiltered members) := by
  refine ⟨?_, ?_, ?_, ?_⟩
  · intro rank
    by_cases h : rank ≤ 3 <;> simp [emphasisMarkers, h]
  · intro rank
    by_cases h : rank ≤ 3 <;> simp [emphasisMarkers, h]
  · intro env parts day unlock rank m s hrow
    rw [renderRow_eq] at hrow
    cases hstart : elapsedStart parts unlock m day with
    | none => rw [hstart] at hrow; exact absurd hrow (by simp)
    | some start =>
      rw [hstart] at hrow
      simp only [Option.map_some', Option.some.injEq] at hrow
      constructor
      · intro hrank
        exact ⟨start, rfl, by rw [← hrow]; simp [emphasisMarkers, hrank]⟩
      · intro hrank
        exact ⟨start, rfl, by rw [← hrow]; simp [emphasisMarkers, hrank]⟩
  · intro members offset rows x hx
    simp only [rankedRows] at hx
    exact List.mem_of_mem_drop (List.mem_of_mem_take hx)

/-- C9 witness: a paginated row (rank 3, third member) is a row of the
pre-pagination filtered ranked sequence. -/
theorem emphasis_top_three_witness :
    ((3, exMember 3 90 2) : Nat × PrivateLeaderboardMember) ∈ rankedFiltered exampleMembers :=
  emphasis_top_three.2.2.2 exampleMembers 2 2 (3, exMember 3 90 2) (by decide)

/-- C6: under scope `SecondPart`, when every fetched member with at least one
star has a completion record for the requested day (the fetcher's contract,
modelled from the spec), rendering never hits the `.unwrap()` panic: the whole
document renders. And when rendering does hit a missing record, `invoke` ends
in the contract-violation fault with no user-facing reply at all. -/
theorem second_part_lookup_safe (env : Env) (p : Params) (lb : Leaderboard) (ts : Int) :
    (p.parts = .P2 → secondPartContract lb.members p.day →
      (renderDocument env p lb ts).isSome = true) ∧
    (∀ args, resolveParams env args = .ok p →
      env.fetch p.year p.day p.parts = .ok (lb, ts) →
      renderDocument env p lb ts = none →
      invoke env args = { sends := [], result := .error .contractViolation }) := by
  constructor
  · intro hparts hcontract
    have hrows : ∀ x ∈ rankedRows (sortMembers lb.members) p.offset p.rows,
        (renderRow env p.parts p.day (env.unlockDatetime p.year p.day) x.1 x.2).isSome
          = true := by
      intro x hx
      have hmem : x.2 ∈ lb.members := mem_sortMembers.mp (snd_mem_of_mem_rankedRows hx)
      have hstars := stars_pos_of_mem_rankedRows hx
      have hlook := hcontract x.2 hmem hstars
      rw [renderRow_isSome, hparts]
      simpa [elapsedStart] using hlook
    have hlist := renderRowsList_isSome env p.parts p.day (env.unlockDatetime p.year p.day)
      (rankedRows (sortMembers lb.members) p.offset p.rows) hrows
    obtain ⟨body, hbody⟩ := Option.isSome_iff_exists.mp hlist
    simp [renderDocument, hbody]
  · intro args hp hf hnone
    rw [invoke_fetched env args p lb ts hp hf, hnone]

/-- C6 witness: the modelled second-part contract holds for a one-member
leaderboard with a day-5 record, so rendering under scope 2 succeeds. -/
theorem second_part_lookup_safe_witness :
    (renderDocument baseEnv p2Params p2Leaderboard 0).isSome = true :=
  (second_part_lookup_safe baseEnv p2Params p2Leaderboard 0).1 rfl
    (by unfold secondPartContract; decide)

/-- C10: with zero qualifying rows — an empty member list, all members having
zero stars, an offset at or past the end of the filtered view, or a limit of
zero — rendering succeeds and the document is exactly the header followed by
the last-update footer, with no row markup in between. -/
theorem empty_rows_render (env : Env) (p : Params) (lb : Leaderboard) (ts : Int)
    (members : List PrivateLeaderboardMember) (offset rows : Nat) :
    (renderRowsList env p.parts p.day (env.unlockDatetime p.year p.day) [] = some "") ∧
    (rankedRows (sortMembers []) offset rows = []) ∧
    ((∀ m ∈ members, m.stars = 0) → rankedRows (sortMembers members) offset rows = []) ∧
    ((rankedFiltered members).length ≤ offset → rankedRows members offset rows = []) ∧
    (rankedRows members offset 0 = []) ∧
    (rankedRows (sortMembers lb.members) p.offset p.rows = [] →
      renderDocument env p lb ts =
        some (headerStr p.year p.day p.parts ++ footerStr (env.fmtLastUpdate ts))) := by
  refine ⟨rfl, by simp [rankedRows, sortMembers, rankedFiltered, assignRanks, assignRanksGo],
    ?_, ?_, ?_, ?_⟩
  · intro hz
    have hfil : rankedFiltered (sortMembers members) = [] := by
      apply List.filter_eq_nil_iff.mpr
      intro a ha
      have hmem : a.2 ∈ members := mem_sortMembers.mp (snd_mem_of_mem_assignRanks ha)
      simp [hz a.2 hmem]
    simp [rankedRows, hfil]
  · intro hlen
    simp [rankedRows, List.drop_eq_nil_of_le hlen]
  · simp [rankedRows]
  · intro hempty
    simp [renderDocument, hempty, renderRowsList, String.append_empty]

/-- C10 witness: an empty leaderboard renders to exactly header plus footer. -/
theorem empty_rows_render_witness :
    renderDocument baseEnv p2Params { members := [] } 0 =
      some (headerStr 2024 5 .P2 ++ footerStr "2024-12-05 12:00:00+0100") :=
  (empty_rows_render baseEnv p2Params { members := [] } 0 [] 0 0).2.2.2.2.2 rfl
